import Mathlib

/-!
# Verification of the map-poster data pipeline

A shallow embedding, in Lean 4, of the pure logic of the map-poster
generator: the file-based cache (`map_poster/caching.py`), the layer
dependency resolver (`map_poster/cli.py`), the fetch orchestration
(`map_poster/fetch.py`), the geometric post-processing formulas
(`create_map_poster.py`), and the coordinate parsers
(`lat_lon_parser.py`, `map_poster/coordinates.py`).

Python floats are modelled as exact rationals (`ℚ`), the file system as a
partial map from paths to stored objects, and external library calls
(OSMnx, geopandas, pickle) as oracle inputs or identity transforms, as
noted at each definition.
-/

namespace MapPoster

/-! ### Cache layer — `map_poster/caching.py`

The cache directory holds one file per key.  We model the relevant slice
of the file system as a map from file paths to the object stored at the
path (`none` when the file does not exist).  `pickle.dump`/`pickle.load`
round-trip the stored object, so the model stores the object itself. -/

/-- File-system state: path → stored object (`none` = no such file). -/
def FS (V : Type) := String → Option V

/-- `os.sep` on the target (POSIX) platform: a single character. -/
def osSep : Char := '/'

/-- The cache directory path (`CACHE_DIR`). -/
def CACHE_DIR : String := "cache"

/-- `_cache_path(key)`: `safe = key.replace(os.sep, "_")`, then
`os.path.join(CACHE_DIR, f"{safe}.pkl")`.  Since `os.sep` is a single
character, `str.replace` acts character-wise. -/
def _cache_path (key : String) : String :=
  let safe := String.mk (key.data.map (fun c => if c = osSep then '_' else c))
  CACHE_DIR ++ "/" ++ safe ++ ".pkl"

/-- `cache_get(key)`: returns the unpickled object stored at
`_cache_path(key)` if that file exists, `None` otherwise. -/
def cache_get {V : Type} (fs : FS V) (key : String) : Option V :=
  fs (_cache_path key)

/-- `cache_set(key, value)`: writes the pickled `value` to
`_cache_path(key)`, overwriting any previous file at that path. -/
def cache_set {V : Type} (fs : FS V) (key : String) (v : V) : FS V :=
  fun p => if p = _cache_path key then some v else fs p

/-! ### Layer dependency resolver — `map_poster/cli.py` -/

/-- `resolve_layer_order(layers)`: `layers` is a `dict`, i.e. an
insertion-ordered mapping; its key list is the input here.  The code
starts from `list(layers.keys())` and, for the single dependency pair
`("ocean", "coastline")`, when both names are present and the
prerequisite `"coastline"` sits at a larger index than `"ocean"`, removes
`"coastline"` and re-inserts it at the index `"ocean"` then occupies. -/
def resolve_layer_order (layers : List String) : List String :=
  if layers = [] then []
  else
    let ordered := layers
    if "ocean" ∈ ordered ∧ "coastline" ∈ ordered ∧
        ordered.indexOf "ocean" < ordered.indexOf "coastline" then
      let removed := ordered.erase "coastline"
      removed.insertIdx (removed.indexOf "ocean") "coastline"
    else ordered

/-- Inserting `c` at the index of (a present) `o` places `c` immediately
before the first occurrence of `o`: `[c, o]` is a sublist of the result. -/
lemma sublist_pair_insertIdx {c o : String} :
    ∀ (m : List String), o ∈ m → List.Sublist [c, o] (m.insertIdx (m.indexOf o) c) := by
  intro m
  induction m with
  | nil => intro h; cases h
  | cons a m ih =>
    intro hmem
    by_cases hao : a = o
    · subst hao
      rw [List.indexOf_cons_self]
      simp only [List.insertIdx_zero]
      exact (List.nil_sublist m).cons₂ a |>.cons₂ c
    · have hne : a ≠ o := hao
      have hmem' : o ∈ m := by
        rcases List.mem_cons.mp hmem with h | h
        · exact absurd h.symm hne
        · exact h
      rw [List.indexOf_cons_ne _ hne]
      simpa [List.insertIdx_succ_cons] using (ih hmem').cons a

/-- If `c` occurs strictly before `o` in `l`, then `[c, o]` is a sublist
of `l`. -/
lemma sublist_pair_of_indexOf_lt {c o : String} :
    ∀ (l : List String), c ∈ l → o ∈ l →
      l.indexOf c < l.indexOf o → List.Sublist [c, o] l := by
  intro l
  induction l with
  | nil => intro h; cases h
  | cons a l ih =>
    intro hc ho hlt
    by_cases hac : a = c
    · subst hac
      have hao : a ≠ o := by
        intro h
        subst h
        rw [List.indexOf_cons_self] at hlt
        exact Nat.not_lt_zero _ hlt
      have ho' : o ∈ l := by
        rcases List.mem_cons.mp ho with h | h
        · exact absurd h.symm hao
        · exact h
      exact (List.singleton_sublist.mpr ho').cons₂ a
    · have hao : a ≠ o := by
        intro h
        subst h
        rw [List.indexOf_cons_self] at hlt
        exact Nat.not_lt_zero _ hlt
      have hc' : c ∈ l := by
        rcases List.mem_cons.mp hc with h | h
        · exact absurd h.symm hac
        · exact h
      have ho' : o ∈ l := by
        rcases List.mem_cons.mp ho with h | h
        · exact absurd h.symm hao
        · exact h
      have hlt' : l.indexOf c < l.indexOf o := by
        rw [List.indexOf_cons_ne _ hac, List.indexOf_cons_ne _ hao] at hlt
        exact Nat.lt_of_succ_lt_succ hlt
      exact (ih hc' ho' hlt').cons a

/-- C1: `resolve_layer_order` returns a permutation of the mapping's keys,
and whenever both `"ocean"` and `"coastline"` are among those keys,
`"coastline"` appears before `"ocean"` in the returned order (the pair
`["coastline", "ocean"]` is a sublist of the result). -/
theorem resolve_layer_order_perm_and_dep (layers : List String) :
    List.Perm (resolve_layer_order layers) layers ∧
    ("ocean" ∈ layers → "coastline" ∈ layers →
      List.Sublist ["coastline", "ocean"] (resolve_layer_order layers)) := by
  unfold resolve_layer_order
  by_cases hnil : layers = []
  · subst hnil
    refine ⟨by simp, ?_⟩
    intro h; cases h
  · rw [if_neg hnil]
    by_cases hcond : "ocean" ∈ layers ∧ "coastline" ∈ layers ∧
        layers.indexOf "ocean" < layers.indexOf "coastline"
    · obtain ⟨ho, hc, hlt⟩ := hcond
      rw [if_pos ⟨ho, hc, hlt⟩]
      have honotc : ("ocean" : String) ≠ "coastline" := by decide
      have ho' : "ocean" ∈ layers.erase "coastline" :=
        (List.mem_erase_of_ne honotc).mpr ho
      constructor
      · have h1 : List.Perm ((layers.erase "coastline").insertIdx
            ((layers.erase "coastline").indexOf "ocean") "coastline")
            ("coastline" :: layers.erase "coastline") :=
          List.perm_insertIdx _ _
            (Nat.le_of_lt (List.indexOf_lt_length.mpr ho'))
        exact h1.trans (List.perm_cons_erase hc).symm
      · intro _ _
        exact sublist_pair_insertIdx _ ho'
    · rw [if_neg hcond]
      refine ⟨List.Perm.refl _, ?_⟩
      intro ho hc
      have honotc : ("coastline" : String) ≠ "ocean" := by decide
      have hne : layers.indexOf "coastline" ≠ layers.indexOf "ocean" := by
        intro h
        have h1 : layers.get ⟨layers.indexOf "coastline",
            List.indexOf_lt_length.mpr hc⟩ = "coastline" :=
          List.indexOf_get _
        have h2 : layers.get ⟨layers.indexOf "ocean",
            List.indexOf_lt_length.mpr ho⟩ = "ocean" :=
          List.indexOf_get _
        apply honotc
        rw [← h1, ← h2]
        congr 1
        exact Fin.ext h
      have hlt : layers.indexOf "coastline" < layers.indexOf "ocean" := by
        rcases Nat.lt_trichotomy (layers.indexOf "coastline")
            (layers.indexOf "ocean") with h | h | h
        · exact h
        · exact absurd h hne
        · exact absurd ⟨ho, hc, h⟩ hcond
      exact sublist_pair_of_indexOf_lt _ hc ho hlt

/-- Witness for C1 at a concrete layer mapping: keys
`["water", "ocean", "coastline"]` (coastline declared after ocean). -/
theorem resolve_layer_order_perm_and_dep_witness :
    List.Perm (resolve_layer_order ["water", "ocean", "coastline"])
      ["water", "ocean", "coastline"] ∧
    List.Sublist ["coastline", "ocean"]
      (resolve_layer_order ["water", "ocean", "coastline"]) :=
  ⟨(resolve_layer_order_perm_and_dep ["water", "ocean", "coastline"]).1,
   (resolve_layer_order_perm_and_dep ["water", "ocean", "coastline"]).2
     (by decide) (by decide)⟩

/-- C2: a cache hit returns the previously stored object: after
`cache_set(k, v)`, with no other write to the same path intervening,
`cache_get(k)` returns `v`. -/
theorem cache_get_cache_set {V : Type} (fs : FS V) (k : String) (v : V) :
    cache_get (cache_set fs k v) k = some v := by
  unfold cache_get cache_set
  simp

/-- C9: the key→path mapping is not injective: `"a/b"` and `"a_b"` differ
only in a path separator versus an underscore, yet map to the same cache
file, so a value stored under `"a/b"` is returned by a lookup of `"a_b"`. -/
theorem cache_path_collision :
    _cache_path "a/b" = _cache_path "a_b" ∧ ("a/b" : String) ≠ "a_b" ∧
    ∀ (V : Type) (fs : FS V) (v : V),
      cache_get (cache_set fs "a/b" v) "a_b" = some v := by
  refine ⟨by decide, by decide, ?_⟩
  intro V fs v
  have h : _cache_path "a/b" = _cache_path "a_b" := by decide
  unfold cache_get cache_set
  rw [← h]
  simp

/-! ### Fetch orchestration — `map_poster/fetch.py`

`fetch_graph` and `fetch_features` first consult the cache; on a hit with
`refresh_cache is False` they return the cached object without contacting
the external API.  Otherwise they call OSMnx — modelled by the oracle
argument `remote` (`some data` for a successful download, `none` when the
library raises) — store a successful result in the cache (a failing
`cache_set` is caught and ignored, so the write is modelled as always
succeeding) and return it.  The outcome records the returned value, the
file system after the call, and whether an external fetch was attempted. -/

/-- Result of a fetch call: returned value, resulting file-system state,
and whether an external (network) fetch was performed. -/
structure FetchOutcome (V : Type) where
  result : Option V
  fs : FS V
  external : Bool

/-- Cache key of `fetch_graph`: `f"graph_{lat}_{lon}_{dist}"`, over the
Python string renderings of the numeric arguments. -/
def graph_key (lat lon dist : String) : String :=
  "graph_" ++ lat ++ "_" ++ lon ++ "_" ++ dist

/-- Cache key of `fetch_features`:
`f"{name}_{lat}_{lon}_{dist}_{tag_str}"` with
`tag_str = "_".join(tags.keys())`. -/
def features_key (name lat lon dist : String) (tagKeys : List String) : String :=
  name ++ "_" ++ lat ++ "_" ++ lon ++ "_" ++ dist ++ "_" ++
    String.intercalate "_" tagKeys

/-- `fetch_graph(point, dist, refresh_cache)`. -/
def fetch_graph {V : Type} (fs : FS V) (lat lon dist : String)
    (refresh_cache : Bool) (remote : Option V) : FetchOutcome V :=
  let key := graph_key lat lon dist
  let cached := cache_get fs key
  if cached.isSome && !refresh_cache then
    { result := cached, fs := fs, external := false }
  else
    match remote with
    | some g => { result := some g, fs := cache_set fs key g, external := true }
    | none => { result := none, fs := fs, external := true }

/-- `fetch_features(point, dist, refresh_cache, tags, name)`. -/
def fetch_features {V : Type} (fs : FS V) (name lat lon dist : String)
    (tagKeys : List String) (refresh_cache : Bool) (remote : Option V) :
    FetchOutcome V :=
  let key := features_key name lat lon dist tagKeys
  let cached := cache_get fs key
  if cached.isSome && !refresh_cache then
    { result := cached, fs := fs, external := false }
  else
    match remote with
    | some d => { result := some d, fs := cache_set fs key d, external := true }
    | none => { result := none, fs := fs, external := true }

/-- C3: on a cache hit with `refresh_cache = False`, `fetch_graph` and
`fetch_features` return the cached value unchanged and perform no external
fetch (the file system is untouched); and only the refresh flag
invalidates a present entry — with `refresh_cache = True` the same hit is
bypassed and an external fetch is performed. -/
theorem fetch_cache_hit {V : Type} (fs : FS V) (lat lon dist name : String)
    (tagKeys : List String) (remote : Option V) (cg cf : V)
    (hg : cache_get fs (graph_key lat lon dist) = some cg)
    (hf : cache_get fs (features_key name lat lon dist tagKeys) = some cf) :
    fetch_graph fs lat lon dist false remote =
      { result := some cg, fs := fs, external := false } ∧
    fetch_features fs name lat lon dist tagKeys false remote =
      { result := some cf, fs := fs, external := false } ∧
    (fetch_graph fs lat lon dist true remote).external = true ∧
    (fetch_features fs name lat lon dist tagKeys true remote).external = true := by
  refine ⟨?_, ?_, ?_, ?_⟩
  · simp only [fetch_graph]
    rw [hg]
    rfl
  · simp only [fetch_features]
    rw [hf]
    rfl
  · simp only [fetch_graph]
    rw [hg]
    cases remote <;> rfl
  · simp only [fetch_features]
    rw [hf]
    cases remote <;> rfl

/-- A concrete populated cache for the C3 witness. -/
def fsHit : FS Nat := fun p =>
  if p = _cache_path (graph_key "1" "2" "500") then some 7
  else if p = _cache_path (features_key "water" "1" "2" "500" ["natural"]) then
    some 8
  else none

/-- Witness for C3: a concrete cache holding a street network under the
graph key and a water layer under the features key. -/
theorem fetch_cache_hit_witness :
    fetch_graph fsHit "1" "2" "500" false none =
      { result := some 7, fs := fsHit, external := false } ∧
    fetch_features fsHit "water" "1" "2" "500" ["natural"] false none =
      { result := some 8, fs := fsHit, external := false } ∧
    (fetch_graph fsHit "1" "2" "500" true none).external = true ∧
    (fetch_features fsHit "water" "1" "2" "500" ["natural"] true none).external
      = true :=
  fetch_cache_hit fsHit "1" "2" "500" "water" ["natural"] none 7 8
    (by decide) (by decide)

/-! ### Geometric post-processing — `create_map_poster.py`

Python floats are modelled as exact rationals. -/

/-- The rotation safety margin from `create_poster`: `1.5 if rotation != 0
else 1.0`. -/
def rotation_buffer (rotation : ℚ) : ℚ :=
  if rotation ≠ 0 then 3 / 2 else 1

/-- The compensated fetch radius from `create_poster`:
`dist * (max(height, width) / min(height, width)) / 4 * rotation_buffer`. -/
def compensated_dist (dist width height rotation : ℚ) : ℚ :=
  dist * (max height width / min height width) / 4 * rotation_buffer rotation

/-- C4 counterexample: at the default poster size (width 12, height 16,
no rotation) and requested radius 18000 — all admissible inputs — the
compensated distance is 6000, strictly smaller than the requested radius,
so the fetch radius is not enlarged. -/
theorem compensated_dist_counterexample :
    (0 : ℚ) < 18000 ∧ (0 : ℚ) < 12 ∧ (0 : ℚ) < 16 ∧
    compensated_dist 18000 12 16 0 = 6000 ∧
    compensated_dist 18000 12 16 0 < 18000 := by
  norm_num [compensated_dist, rotation_buffer, max_def, min_def]

/-- C4 amended: the compensated distance equals
`dist · (max(h,w)/min(h,w)) / 4 · rotation_buffer`; it is at least
`dist / 4`, and it reaches the requested radius `dist` exactly when the
aspect ratio times the rotation buffer is at least 4. -/
theorem compensated_dist_amended (dist width height rotation : ℚ)
    (hd : 0 < dist) (hw : 0 < width) (hh : 0 < height) :
    compensated_dist dist width height rotation =
      dist * (max height width / min height width) / 4 *
        rotation_buffer rotation ∧
    dist / 4 ≤ compensated_dist dist width height rotation ∧
    (dist ≤ compensated_dist dist width height rotation ↔
      4 ≤ (max height width / min height width) * rotation_buffer rotation) := by
  have hmin : 0 < min height width := lt_min hh hw
  have ha : 1 ≤ max height width / min height width :=
    (one_le_div hmin).mpr (min_le_max)
  have hb : 1 ≤ rotation_buffer rotation := by
    unfold rotation_buffer
    split <;> norm_num
  set a := max height width / min height width with hadef
  set b := rotation_buffer rotation with hbdef
  have hab : 1 ≤ a * b := by nlinarith
  have hkey : compensated_dist dist width height rotation =
      dist * (a * b) / 4 := by
    unfold compensated_dist
    rw [← hadef, ← hbdef]
    ring
  refine ⟨by unfold compensated_dist; rw [← hadef, ← hbdef], ?_, ?_⟩
  · rw [hkey]
    have h4 : (0 : ℚ) < 4 := by norm_num
    rw [div_le_div_iff_of_pos_right h4]
    nlinarith
  · rw [hkey]
    have h4 : (0 : ℚ) < 4 := by norm_num
    rw [le_div_iff₀ h4]
    constructor
    · intro h
      nlinarith
    · intro h
      nlinarith

/-- Witness for C4 amended at `dist = 4000`, square 10×10 poster,
no rotation. -/
theorem compensated_dist_amended_witness :
    compensated_dist 4000 10 10 0 =
      4000 * (max 10 10 / min 10 10) / 4 * rotation_buffer 0 ∧
    (4000 : ℚ) / 4 ≤ compensated_dist 4000 10 10 0 ∧
    ((4000 : ℚ) ≤ compensated_dist 4000 10 10 0 ↔
      4 ≤ (max (10 : ℚ) 10 / min (10 : ℚ) 10) * rotation_buffer 0) :=
  compensated_dist_amended 4000 10 10 0 (by norm_num) (by norm_num)
    (by norm_num)

/-- `get_crop_limits(G_proj, center_lat_lon, fig, dist)`: the projection of
the centre into the graph CRS is an external call, so the projected centre
coordinates are taken as inputs; `aspect = fig_width / fig_height`, both
half-extents start at `dist`, and the larger axis is cut inward to match
the aspect ratio. -/
def get_crop_limits (center_x center_y fig_width fig_height dist : ℚ) :
    (ℚ × ℚ) × (ℚ × ℚ) :=
  let aspect := fig_width / fig_height
  let half_x := if aspect > 1 then dist else dist * aspect
  let half_y := if aspect > 1 then dist / aspect else dist
  ((center_x - half_x, center_x + half_x), (center_y - half_y, center_y + half_y))

/-- C5: `get_crop_limits` returns intervals centred on the projected
centre whose half-extents are in the figure's aspect ratio
(`width/height`); the larger half-extent equals `dist` and neither
half-extent exceeds `dist`. -/
theorem get_crop_limits_spec (cx cy w h dist : ℚ)
    (hw : 0 < w) (hh : 0 < h) (hd : 0 < dist) :
    ∃ hx hy : ℚ,
      get_crop_limits cx cy w h dist =
        ((cx - hx, cx + hx), (cy - hy, cy + hy)) ∧
      hx / hy = w / h ∧ max hx hy = dist ∧
      0 < hx ∧ hx ≤ dist ∧ 0 < hy ∧ hy ≤ dist := by
  have haspect : 0 < w / h := div_pos hw hh
  by_cases hc : w / h > 1
  · refine ⟨dist, dist / (w / h), ?_, ?_, ?_, hd, le_refl dist,
      div_pos hd haspect, div_le_self hd.le hc.le⟩
    · simp only [get_crop_limits]
      rw [if_pos hc, if_pos hc]
    · rw [div_div_eq_mul_div, mul_comm, mul_div_assoc,
        div_self (ne_of_gt hd), mul_one]
    · exact max_eq_left (div_le_self hd.le hc.le)
  · push_neg at hc
    refine ⟨dist * (w / h), dist, ?_, ?_, ?_, by positivity,
      mul_le_of_le_one_right hd.le hc, hd, le_refl dist⟩
    · simp only [get_crop_limits]
      rw [if_neg (not_lt.mpr hc), if_neg (not_lt.mpr hc)]
    · rw [mul_comm, mul_div_assoc, div_self (ne_of_gt hd), mul_one]
    · exact max_eq_right (mul_le_of_le_one_right hd.le hc)

/-- Witness for C5 at centre (100, 200), a 12×16 portrait figure and
`dist = 1000`. -/
theorem get_crop_limits_spec_witness :
    ∃ hx hy : ℚ,
      get_crop_limits 100 200 12 16 1000 =
        ((100 - hx, 100 + hx), (200 - hy, 200 + hy)) ∧
      hx / hy = 12 / 16 ∧ max hx hy = 1000 ∧
      0 < hx ∧ hx ≤ 1000 ∧ 0 < hy ∧ hy ≤ 1000 :=
  get_crop_limits_spec 100 200 12 16 1000 (by norm_num) (by norm_num)
    (by norm_num)

/-- `calculate_line_scaling(crop_xlim, crop_ylim, width, dpi, px_per_m_ref)`:
the current pixels-per-metre `(width * dpi) / fov_x` divided by the
reference value.  The code also computes `fov_y` but never uses it. -/
def calculate_line_scaling (crop_xlim crop_ylim : ℚ × ℚ)
    (width dpi px_per_m_ref : ℚ) : ℚ :=
  let fov_x := crop_xlim.2 - crop_xlim.1
  let _fov_y := crop_ylim.2 - crop_ylim.1
  let px_per_m_cur := (width * dpi) / fov_x
  px_per_m_cur / px_per_m_ref

/-- C6: `calculate_line_scaling` returns exactly
`((width * dpi) / (crop_xlim[1] - crop_xlim[0])) / px_per_m_ref`; it does
not depend on `crop_ylim`; and it equals 1 whenever the current
pixels-per-metre equals the reference. -/
theorem calculate_line_scaling_spec (xl yl : ℚ × ℚ) (width dpi ref : ℚ)
    (_hfov : xl.2 - xl.1 ≠ 0) (href : ref ≠ 0) :
    calculate_line_scaling xl yl width dpi ref =
      ((width * dpi) / (xl.2 - xl.1)) / ref ∧
    (∀ yl' : ℚ × ℚ,
      calculate_line_scaling xl yl' width dpi ref =
        calculate_line_scaling xl yl width dpi ref) ∧
    ((width * dpi) / (xl.2 - xl.1) = ref →
      calculate_line_scaling xl yl width dpi ref = 1) := by
  refine ⟨rfl, fun yl' => rfl, fun hcur => ?_⟩
  show ((width * dpi) / (xl.2 - xl.1)) / ref = 1
  rw [hcur]
  exact div_self href

/-- Witness for C6 at `crop_xlim = (0, 2)`, `crop_ylim = (0, 3)`,
width 1, dpi 600, reference 5. -/
theorem calculate_line_scaling_spec_witness :
    calculate_line_scaling (0, 2) (0, 3) 1 600 5 =
      ((1 * 600 : ℚ) / ((2 : ℚ) - 0)) / 5 ∧
    (∀ yl' : ℚ × ℚ,
      calculate_line_scaling (0, 2) yl' 1 600 5 =
        calculate_line_scaling (0, 2) (0, 3) 1 600 5) ∧
    ((1 * 600 : ℚ) / ((2 : ℚ) - 0) = 5 →
      calculate_line_scaling (0, 2) (0, 3) 1 600 5 = 1) :=
  calculate_line_scaling_spec (0, 2) (0, 3) 1 600 5 (by norm_num)
    (by norm_num)

/-! ### Output filename — `create_map_poster.py` -/

/-- `generate_output_filename(city, country, theme_name, output_format)`
returns `posters/<country>/<city>/<city_slug>_<theme>_<timestamp>.<ext>`
where `timestamp = datetime.now().strftime("%Y%m%d_%H%M%S")`: the wall
clock is a hidden input of the Python function, made an explicit argument
here.  (The `os.makedirs` side effect does not influence the returned
path.) -/
def generate_output_filename
    (city country theme_name output_format timestamp : String) : String :=
  let city_slug :=
    String.mk ((city.data.map Char.toLower).map
      (fun c => if c = ' ' then '_' else c))
  let ext := String.mk (output_format.data.map Char.toLower)
  "posters" ++ "/" ++ country ++ "/" ++ city ++ "/" ++
    (city_slug ++ "_" ++ theme_name ++ "_" ++ (timestamp ++ ("." ++ ext)))

/-- C8 counterexample: two runs with identical city, country, theme and
format but clock readings one second apart return different paths, so the
output filename is not a function of those four inputs alone. -/
theorem generate_output_filename_counterexample :
    generate_output_filename "Paris" "France" "noir" "png" "20260101_120000" ≠
      generate_output_filename "Paris" "France" "noir" "png" "20260101_120001" := by
  decide

/-- C8 amended: `generate_output_filename` is a deterministic function of
its inputs once the hidden clock input is included — for fixed city,
country, theme and format, two runs return the same path exactly when
their formatted timestamps coincide. -/
theorem generate_output_filename_deterministic
    (city country theme fmt ts₁ ts₂ : String) :
    generate_output_filename city country theme fmt ts₁ =
      generate_output_filename city country theme fmt ts₂ ↔ ts₁ = ts₂ := by
  constructor
  · intro hpath
    unfold generate_output_filename at hpath
    have hdata := congrArg String.data hpath
    simp only [String.data_append] at hdata
    have h1 := List.append_cancel_left hdata
    have h2 := List.append_cancel_left h1
    exact String.ext (List.append_cancel_right h2)
  · intro h
    rw [h]

/-! ### Width-tagged line conversion — `convert_linewidth_to_poly` in
`map_poster/fetch.py`

A GeoDataFrame is modelled as a list of rows; each row carries an
optional geometry and the value of its `width` tag.  Geometries are
abstract: the shapely `buffer(width/2)` call is a constructor.  The CRS
round-trip (`ox.projection.project_gdf` to a metric CRS and back to
lat/long) is an external transform modelled as the identity on rows. -/

/-- A Python value that can sit in the `width` tag column: missing
(`None`/`NaN`), a number, a string, or a list of values. -/
inductive TagVal where
  | none
  | num (q : ℚ)
  | str (s : String)
  | list (l : List TagVal)

/-- The value of a Python `float`: a finite rational, one of the two
infinities, or `NaN`.  `float("inf")` and `float("nan")` are legal width
tags, so the model must carry them. -/
inductive PyFloatVal where
  | finite (q : ℚ)
  | inf
  | neginf
  | nan

/-- Unary minus on a Python float (`float("-inf")`, `float("-nan")`). -/
def PyFloatVal.neg : PyFloatVal → PyFloatVal
  | .finite q => .finite (-q)
  | .inf => .neginf
  | .neginf => .inf
  | .nan => .nan

/-- Division by two, as in `width_m / 2.0` (`inf / 2 = inf`,
`nan / 2 = nan`). -/
def PyFloatVal.half : PyFloatVal → PyFloatVal
  | .finite q => .finite (q / 2)
  | v => v

/-- "Parses to a positive number": the pandas mask `notna & (> 0)` on the
parsed value — `NaN` is dropped by `notna` (and compares false to 0
anyway), `inf` compares greater than zero. -/
def PyFloatVal.IsPositive : PyFloatVal → Prop
  | .finite q => 0 < q
  | .inf => True
  | .neginf => False
  | .nan => False

/-- Abstract planar geometry: a source geometry, or the shapely
`buffer(d, cap_style=2, join_style=2)` of a geometry — buffering a line
by `d` extends it by `d` on each side. -/
inductive Geom where
  | source (id : Nat)
  | buffer (g : Geom) (d : PyFloatVal)

/-- One GeoDataFrame row: optional geometry plus the `width` tag. -/
structure Row where
  geometry : Option Geom
  width : TagVal

/-- Leading run of decimal digits of a character list, and the rest. -/
def takeDigits : List Char → List Char × List Char
  | [] => ([], [])
  | c :: cs =>
    if c.isDigit then
      let (ds, r) := takeDigits cs
      (c :: ds, r)
    else ([], c :: cs)

/-- Digit characters to the natural number they denote. -/
def digitsToNat (ds : List Char) : Nat :=
  ds.foldl (fun n c => 10 * n + (c.toNat - '0'.toNat)) 0

/-- A `digitpart` of the Python float grammar after its leading digit:
`digit (["_"] digit)*`, an underscore only between two digits.  Returns
the digits with the separating underscores removed, and the rest.
`fuel` bounds the recursion; the list length suffices since every step
consumes at least one character. -/
def digitPartAux : Nat → List Char → List Char × List Char
  | 0, cs => ([], cs)
  | _ + 1, [] => ([], [])
  | fuel + 1, c :: rest =>
    if c.isDigit then
      let (ds, r) := digitPartAux fuel rest
      (c :: ds, r)
    else if c = '_' then
      match rest with
      | d :: rest' =>
        if d.isDigit then
          let (ds, r) := digitPartAux fuel rest'
          (d :: ds, r)
        else ([], c :: rest)
      | [] => ([], [c])
    else ([], c :: rest)

/-- A `digitpart` (`digit (["_"] digit)*`): it must start with a digit,
so `"_5"` or `"5_"` contribute no complete digit part beyond the rule. -/
def takeDigitPart (cs : List Char) : List Char × List Char :=
  match cs with
  | c :: _ => if c.isDigit then digitPartAux cs.length cs else ([], cs)
  | [] => ([], [])

/-- The unsigned body of Python `float(s)`:
`infinity | nan | digitpart ["." [digitpart]] [exponent]
| "." digitpart [exponent]` with
`exponent = ("e"|"E") [sign] digitpart`, `inf`/`infinity`/`nan`
case-insensitive, underscores only between digits, and the whole input
consumed; `none` models the `ValueError`. -/
def parsePyFloatUnsigned (cs : List Char) : Option PyFloatVal :=
  let low := cs.map Char.toLower
  if low = ['i', 'n', 'f'] ∨ low = ['i', 'n', 'f', 'i', 'n', 'i', 't', 'y'] then
    some PyFloatVal.inf
  else if low = ['n', 'a', 'n'] then
    some PyFloatVal.nan
  else
    let (ip, r) := takeDigitPart cs
    let (fp, r') :=
      match r with
      | '.' :: rest => takeDigitPart rest
      | _ => ([], r)
    if ip = [] ∧ fp = [] then Option.none
    else
      let m : ℚ := (digitsToNat ip : ℚ) + (digitsToNat fp : ℚ) / 10 ^ fp.length
      match r' with
      | [] => some (PyFloatVal.finite m)
      | e :: rest =>
        if e = 'e' ∨ e = 'E' then
          let (esign, rest') :=
            match rest with
            | '+' :: t => (true, t)
            | '-' :: t => (false, t)
            | t => (true, t)
          let (ed, rest'') := takeDigitPart rest'
          if ed = [] ∨ rest'' ≠ [] then Option.none
          else if esign then
            some (PyFloatVal.finite (m * 10 ^ digitsToNat ed))
          else
            some (PyFloatVal.finite (m / 10 ^ digitsToNat ed))
        else Option.none

/-- Python `float(s)` on a string: optional surrounding whitespace and
sign, then the unsigned body; `none` models the `ValueError`. -/
def pyFloat (s : String) : Option PyFloatVal :=
  match s.trim.data with
  | '-' :: cs => (parsePyFloatUnsigned cs).map PyFloatVal.neg
  | '+' :: cs => parsePyFloatUnsigned cs
  | cs => parsePyFloatUnsigned cs

/-- Python `str.replace(pat, "")` for a non-empty `pat`: removes the
leftmost occurrence and continues after it.  `fuel` bounds the recursion;
it is instantiated with the string length, which suffices because every
step consumes at least one character. -/
def removeSubstr (pat : List Char) : Nat → List Char → List Char
  | 0, cs => cs
  | _ + 1, [] => []
  | fuel + 1, c :: cs =>
    if pat ≠ [] ∧ pat.isPrefixOf (c :: cs) then
      removeSubstr pat fuel (List.drop pat.length (c :: cs))
    else
      c :: removeSubstr pat fuel cs

/-- `s.replace(pat, "")`. -/
def pyRemove (s pat : String) : String :=
  String.mk (removeSubstr pat.data s.data.length s.data)

/-- The string branch of `_parse_width_m`:
`cleaned = value.strip().lower().replace('meters', '').replace('meter',
'').replace('m', '').strip()`, then `float(cleaned) if cleaned else None`,
with `ValueError` caught to `None`. -/
def parseWidthStr (s : String) : Option PyFloatVal :=
  let lowered := String.mk (s.trim.data.map Char.toLower)
  let cleaned :=
    (pyRemove (pyRemove (pyRemove lowered "meters") "meter") "m").trim
  if cleaned = "" then Option.none else pyFloat cleaned

/-- `_parse_width_m(value)` from `convert_linewidth_to_poly`: unwraps a
list to its first element (`None` when empty), passes strings through the
cleaning branch, converts numbers directly; `float` on a nested list
raises `TypeError`, caught to `None`. -/
def _parse_width_m (v : TagVal) : Option PyFloatVal :=
  match v with
  | .none => Option.none
  | .num q => some (PyFloatVal.finite q)
  | .str s => parseWidthStr s
  | .list l =>
    match l.head? with
    | Option.none => Option.none
    | some .none => Option.none
    | some (.num q) => some (PyFloatVal.finite q)
    | some (.str s) => parseWidthStr s
    | some (.list _) => Option.none

/-- The pandas boolean mask
`projected['width_m'].notna() & (projected['width_m'] > 0)` on one row:
a missing value and `NaN` fail `notna`, `inf > 0` holds, `-inf > 0`
fails. -/
def width_mask (r : Row) : Bool :=
  match _parse_width_m r.width with
  | some (PyFloatVal.finite q) => decide (0 < q)
  | some PyFloatVal.inf => true
  | some PyFloatVal.neginf => false
  | some PyFloatVal.nan => false
  | Option.none => false

/-- `convert_linewidth_to_poly(gdf)`: `None` input is `Option.none`;
rows with null geometry are dropped; rows passing `width_mask` get their
geometry buffered by `width_m / 2` and go to the polygons output, the
rest go unchanged to the lines output. -/
def convert_linewidth_to_poly (gdf : Option (List Row)) :
    List Row × List Row :=
  match gdf with
  | Option.none => ([], [])
  | some rows =>
    if rows.isEmpty then ([], [])
    else
      let source := rows.filter (fun r => r.geometry.isSome)
      if source.isEmpty then ([], [])
      else
        let poly_rows := source.filter width_mask
        let line_rows := source.filter (fun r => !width_mask r)
        let buffered := poly_rows.map (fun r =>
          { r with geometry := r.geometry.map (fun g =>
              Geom.buffer g (((_parse_width_m r.width).getD PyFloatVal.nan).half)) })
        (buffered, line_rows)

/-- C7: `convert_linewidth_to_poly` maps `None` and the empty frame to two
empty outputs; otherwise it splits the rows with non-null geometry into
two disjoint covering outputs — the rows whose `width` tag parses to a
positive number appear in the polygons output with geometry buffered by
`width/2`, every other row appears unchanged in the lines output, and the
output lengths add up to the number of non-null-geometry rows. -/
theorem convert_linewidth_to_poly_spec (rows : List Row) :
    convert_linewidth_to_poly Option.none = ([], []) ∧
    convert_linewidth_to_poly (some []) = ([], []) ∧
    (∀ r : Row, width_mask r = true ↔
      ∃ v : PyFloatVal, _parse_width_m r.width = some v ∧ v.IsPositive) ∧
    (convert_linewidth_to_poly (some rows)).1 =
      ((rows.filter (fun r => r.geometry.isSome)).filter width_mask).map
        (fun r => { r with geometry := r.geometry.map (fun g =>
          Geom.buffer g (((_parse_width_m r.width).getD PyFloatVal.nan).half)) }) ∧
    (convert_linewidth_to_poly (some rows)).2 =
      (rows.filter (fun r => r.geometry.isSome)).filter
        (fun r => !width_mask r) ∧
    (convert_linewidth_to_poly (some rows)).1.length +
        (convert_linewidth_to_poly (some rows)).2.length =
      (rows.filter (fun r => r.geometry.isSome)).length := by
  have hmask : ∀ r : Row, width_mask r = true ↔
      ∃ v : PyFloatVal, _parse_width_m r.width = some v ∧ v.IsPositive := by
    intro r
    unfold width_mask
    cases h : _parse_width_m r.width with
    | none => simp
    | some v => cases v <;> simp [PyFloatVal.IsPositive]
  have hchar : (convert_linewidth_to_poly (some rows)).1 =
      ((rows.filter (fun r => r.geometry.isSome)).filter width_mask).map
        (fun r => { r with geometry := r.geometry.map (fun g =>
          Geom.buffer g (((_parse_width_m r.width).getD PyFloatVal.nan).half)) }) ∧
      (convert_linewidth_to_poly (some rows)).2 =
        (rows.filter (fun r => r.geometry.isSome)).filter
          (fun r => !width_mask r) := by
    cases rows with
    | nil => simp [convert_linewidth_to_poly]
    | cons a l =>
      simp only [convert_linewidth_to_poly, List.isEmpty_cons,
        Bool.false_eq_true, if_false]
      cases hsrc : ((a :: l).filter (fun r => r.geometry.isSome)).isEmpty with
      | true =>
        rw [if_pos rfl]
        rw [List.isEmpty_iff] at hsrc
        rw [hsrc]
        simp
      | false =>
        rw [if_neg (by simp [hsrc])]
        exact ⟨rfl, rfl⟩
  refine ⟨rfl, rfl, hmask, hchar.1, hchar.2, ?_⟩
  rw [hchar.1, hchar.2, List.length_map]
  exact (List.length_eq_length_filter_add
    (l := rows.filter (fun r => r.geometry.isSome)) width_mask).symm

/-! ### Coordinate parsers — `lat_lon_parser.py` and
`map_poster/coordinates.py`

Both files define the same pipeline over the regular expression
`-?\d+(?:\.\d+)?`: extract all numbers, combine them as
degrees/minutes/seconds, and apply a sign from a cardinal direction.
The `re` and `float` machinery shared by the two modules is modelled
once; each module's own private helpers are embedded separately below.
Raised `ValueError`s are modelled by `Except.error`. -/

/-- The optional fractional part `(?:\.\d+)?` at the current position:
returns the consumed characters (empty when the group does not match)
and the rest. -/
def matchFrac (cs : List Char) : List Char × List Char :=
  match cs with
  | '.' :: rest =>
    match takeDigits rest with
    | ([], _) => ([], cs)
    | (fs, r) => ('.' :: fs, r)
  | _ => ([], cs)

/-- A greedy match of `-?\d+(?:\.\d+)?` anchored at the current
position: `none` when the pattern does not match here. -/
def matchNum (cs : List Char) : Option (List Char × List Char) :=
  match cs with
  | '-' :: rest =>
    match takeDigits rest with
    | ([], _) => Option.none
    | (ds, r) =>
      let (f, r') := matchFrac r
      some ('-' :: (ds ++ f), r')
  | _ =>
    match takeDigits cs with
    | ([], _) => Option.none
    | (ds, r) =>
      let (f, r') := matchFrac r
      some (ds ++ f, r')

/-- Leftmost non-overlapping matches, as `re.findall`: try a match at
each position, skip one character when none starts here.  `fuel` bounds
the recursion; the string length suffices since every successful match
consumes at least one character. -/
def findallAux : Nat → List Char → List String
  | 0, _ => []
  | _ + 1, [] => []
  | fuel + 1, c :: cs =>
    match matchNum (c :: cs) with
    | some (m, rest) => String.mk m :: findallAux fuel rest
    | Option.none => findallAux fuel cs

/-- `_DMS_RE.findall(value)` for `_DMS_RE = re.compile(r"-?\d+(?:\.\d+)?")`. -/
def findallNums (s : String) : List String :=
  findallAux s.data.length s.data

namespace LatLonFile

/-- `_numbers(value)` from `lat_lon_parser.py`: `float` never fails on a
regex match, so the conversion's default branch is unreachable. -/
def _numbers (value : String) : List ℚ :=
  (findallNums value).map (fun num =>
    match pyFloat num with
    | some (PyFloatVal.finite q) => q
    | _ => 0)

/-- `_direction_multiplier(value)` from `lat_lon_parser.py`: the first of
S, W, N, E contained in the upper-cased stripped string decides the sign;
default 1. -/
def _direction_multiplier (value : String) : Int :=
  let v := String.mk (value.trim.data.map Char.toUpper)
  if 'S' ∈ v.data then -1
  else if 'W' ∈ v.data then -1
  else if 'N' ∈ v.data then 1
  else if 'E' ∈ v.data then 1
  else 1

/-- `_dms_to_decimal(parts)` from `lat_lon_parser.py`. -/
def _dms_to_decimal (parts : List ℚ) : Except String ℚ :=
  match parts with
  | [] => .error "No numeric values found in coordinate string."
  | [v] => .ok v
  | [d, m] => .ok (d + m / 60)
  | d :: m :: s :: _ => .ok (d + m / 60 + s / 3600)

/-- `parse(value)` from `lat_lon_parser.py`.  (The `value is None` guard
has no counterpart for a Lean `String` input.) -/
def parse (value : String) : Except String ℚ :=
  let value := value.trim
  if value = "" then .error "Coordinate value is required."
  else
    match _dms_to_decimal (_numbers value) with
    | .error e => .error e
    | .ok decimal =>
      let multiplier : Int := _direction_multiplier value
      let multiplier : Int := if decimal < 0 then -1 else multiplier
      .ok (|decimal| * (multiplier : ℚ))

end LatLonFile

namespace Coordinates

/-- `_numbers(value)` from `map_poster/coordinates.py`. -/
def _numbers (value : String) : List ℚ :=
  (findallNums value).map (fun num =>
    match pyFloat num with
    | some (PyFloatVal.finite q) => q
    | _ => 0)

/-- `_direction_multiplier(value)` from `map_poster/coordinates.py`. -/
def _direction_multiplier (value : String) : Int :=
  let v := String.mk (value.trim.data.map Char.toUpper)
  if 'S' ∈ v.data then -1
  else if 'W' ∈ v.data then -1
  else if 'N' ∈ v.data then 1
  else if 'E' ∈ v.data then 1
  else 1

/-- `_dms_to_decimal(parts)` from `map_poster/coordinates.py`. -/
def _dms_to_decimal (parts : List ℚ) : Except String ℚ :=
  match parts with
  | [] => .error "No numeric values found in coordinate string."
  | [v] => .ok v
  | [d, m] => .ok (d + m / 60)
  | d :: m :: s :: _ => .ok (d + m / 60 + s / 3600)

/-- `parse_coordinate(value)` from `map_poster/coordinates.py`. -/
def parse_coordinate (value : String) : Except String ℚ :=
  let value := value.trim
  if value = "" then .error "Coordinate value is required."
  else
    match _dms_to_decimal (_numbers value) with
    | .error e => .error e
    | .ok decimal =>
      let multiplier : Int := _direction_multiplier value
      let multiplier : Int := if decimal < 0 then -1 else multiplier
      .ok (|decimal| * (multiplier : ℚ))

end Coordinates

/-- C10: the primary parser `parse` (`lat_lon_parser.py`) and the bundled
fallback `parse_coordinate` (`map_poster/coordinates.py`) agree on every
input: same decimal-degree value whenever either succeeds, and a
`ValueError` on exactly the same inputs. -/
theorem parse_eq_parse_coordinate :
    ∀ value : String, LatLonFile.parse value = Coordinates.parse_coordinate value :=
  fun _ => rfl

end MapPoster
